import Mathlib

/-!
# swaybg: shallow embedding and verification

A shallow embedding of `src/swaybg/main.c` (the swaybg background renderer):
the color validator `is_valid_color`, the C `atoi` parsing of the output
index, the scaling-mode string dispatch, the per-mode placement computation
(the `switch` in `main`), and the top-level control flow of `main` as a
function from an environment (compositor registry state, image-decode
oracle) and an argument vector to a trace of observable events and a final
outcome.

All placement arithmetic is modelled over `ℚ`; the C code computes the same
formulas in `double`.
-/

namespace Swaybg

/-- C `isxdigit`: hexadecimal digit characters. -/
def isxdigit (c : Char) : Bool :=
  c.isDigit || (('a' ≤ c) && (c ≤ 'f')) || (('A' ≤ c) && (c ≤ 'F'))

/-- C `isspace`: the six standard whitespace characters. -/
def isspace (c : Char) : Bool :=
  c = ' ' || c = '\t' || c = '\n' || c = '\x0b' || c = '\x0c' || c = '\r'

/-- `is_valid_color` from main.c lines 38-53: length must be exactly 7, the
first character must be the hash sign, and the remaining six characters must
be hexadecimal digits. -/
def is_valid_color (color : String) : Bool :=
  let cs := color.toList
  if cs.length ≠ 7 || cs.head? ≠ some '#' then false
  else (cs.drop 1).all isxdigit

/-- Accumulate the value of a leading run of decimal digits, as the digit
loop of C `atoi` does; stops at the first non-digit. -/
def digitsVal : List Char → Nat → Nat
  | c :: rest, acc =>
      if c.isDigit then digitsVal rest (acc * 10 + (c.toNat - 48)) else acc
  | [], acc => acc

/-- Skip leading whitespace, as C `atoi` does before parsing. -/
def dropSpaces : List Char → List Char
  | c :: rest => if isspace c then dropSpaces rest else c :: rest
  | [] => []

/-- C `atoi` (main.c line 68): skip whitespace, read an optional sign, then
a run of decimal digits; a string with no leading digits yields 0 and no
error is reported. -/
def atoi (s : String) : Int :=
  match dropSpaces s.toList with
  | [] => 0
  | c :: rest =>
      if c = '-' then - (digitsVal rest 0 : Int)
      else if c = '+' then (digitsVal rest 0 : Int)
      else (digitsVal (c :: rest) 0 : Int)

/-- True when the string has no leading integer in the sense of `atoi`:
after whitespace and an optional sign there is no decimal digit. -/
def noLeadingInt (s : String) : Bool :=
  match dropSpaces s.toList with
  | [] => true
  | c :: rest =>
      if c = '-' ∨ c = '+' then
        match rest with
        | [] => true
        | d :: _ => !d.isDigit
      else !c.isDigit

/-- `enum scaling_mode` from main.c lines 19-25. -/
inductive scaling_mode where
  | stretch
  | fill
  | fit
  | center
  | tile
deriving DecidableEq

/-- The scaling-mode string dispatch of main.c lines 106-120: the five
recognized strings map to their variants; any other string falls into the
`sway_abort` arm, modelled as `none`. -/
def parseScalingMode (s : String) : Option scaling_mode :=
  if s == "stretch" then some .stretch
  else if s == "fill" then some .fill
  else if s == "fit" then some .fit
  else if s == "center" then some .center
  else if s == "tile" then some .tile
  else none

/-- The paint transform produced for one scaling mode: the arguments of
`cairo_scale` and the source-surface offsets passed to
`cairo_set_source_surface`, plus whether the source is a repeating pattern
(`CAIRO_EXTEND_REPEAT`). When the code does not call `cairo_scale`, the
cairo transform keeps its identity scale of 1. -/
structure Placement where
  scale_x : ℚ
  scale_y : ℚ
  offset_x : ℚ
  offset_y : ℚ
  repeats : Bool
deriving DecidableEq

/-- SCALING_MODE_STRETCH case (main.c lines 129-134): independent scale
factors, source at (0,0). -/
def placeStretch (ww wh w h : ℚ) : Placement :=
  ⟨ww / w, wh / h, 0, 0, false⟩

/-- SCALING_MODE_FILL case (main.c lines 135-154): uniform scale chosen by
the ratio comparison; offsets as passed to `cairo_set_source_surface`. -/
def placeFill (ww wh w h : ℚ) : Placement :=
  let window_ratio := ww / wh
  let bg_ratio := w / h
  if window_ratio > bg_ratio then
    let scale := ww / w
    ⟨scale, scale, 0, wh / 2 / scale - h / 2, false⟩
  else
    let scale := wh / h
    ⟨scale, scale, ww / 2 / scale - w / 2, 0, false⟩

/-- SCALING_MODE_FIT case (main.c lines 155-174): the mirror image of fill,
with the two branches swapped. -/
def placeFit (ww wh w h : ℚ) : Placement :=
  let window_ratio := ww / wh
  let bg_ratio := w / h
  if window_ratio > bg_ratio then
    let scale := wh / h
    ⟨scale, scale, ww / 2 / scale - w / 2, 0, false⟩
  else
    let scale := ww / w
    ⟨scale, scale, 0, wh / 2 / scale - h / 2, false⟩

/-- SCALING_MODE_CENTER case (main.c lines 175-179): no `cairo_scale` call,
so the transform scale stays 1; the image is centered. -/
def placeCenter (ww wh w h : ℚ) : Placement :=
  ⟨1, 1, ww / 2 - w / 2, wh / 2 - h / 2, false⟩

/-- SCALING_MODE_TILE case (main.c lines 180-186): no `cairo_scale` call
(scale stays 1), the source repeats. -/
def placeTile (ww wh w h : ℚ) : Placement :=
  ⟨1, 1, 0, 0, true⟩

/-- One entry of `registry->outputs` (`struct output_state`): logical width
and height and an integer scale factor. -/
structure output_state where
  width : Nat
  height : Nat
  scale : Nat
deriving DecidableEq

/-- The environment `main` runs in: whether the compositor advertises the
desktop-shell capability, the list of known outputs, whether window/surface
creation succeeds, and an oracle for the image decoder (the dimensions of
the decoded raster, or `none` on decode failure). -/
structure Env where
  desktop_shell : Bool
  outputs : List output_state
  window_ok : Bool
  decode : String → Option (Nat × Nat)

/-- Observable events of a run of `main`, in program order. -/
inductive Event where
  | logUsingOutput (i : Int) (n : Nat)
  | attemptDecode (path : String)
  | paint
deriving DecidableEq

/-- How a run of `main` ends: `abort msg` is `sway_abort` (message to
stderr, non-zero exit status), `undefined` is an out-of-bounds access to
`registry->outputs->items` (undefined behavior in the C source), `running`
means the render succeeded and the process entered the blocking
`wl_display_dispatch` loop. -/
inductive Outcome where
  | abort (msg : String)
  | undefined
  | running
deriving DecidableEq

/-- A run of `main`: its event trace and its outcome. -/
structure RunResult where
  events : List Event
  outcome : Outcome
deriving DecidableEq

/-- The access `registry->outputs->items[desired_output]` (main.c line 71).
The C code performs no bounds check; the embedding yields a value exactly
when `0 <= i < l.length`. -/
def lookupOutput (l : List output_state) (i : Int) : Option output_state :=
  if 0 ≤ i then l.get? i.toNat else none

/-- The paint phase of `main` (lines 81-198), reached after the window is
set up: either the solid-color branch (line 81) paints directly, or the
image fallthrough decodes `arg2` as an image file, dispatches the scaling
mode string, and paints. `window_prerender` is modelled as succeeding. -/
def runPaint (env : Env) (arg2 arg3 : String) : List Event × Outcome :=
  if arg3 == "solid_color" && is_valid_color arg2 then
    ([Event.paint], Outcome.running)
  else
    match env.decode arg2 with
    | none => ([Event.attemptDecode arg2], Outcome.abort "Failed to load background image.")
    | some _ =>
      match parseScalingMode arg3 with
      | none =>
          ([Event.attemptDecode arg2], Outcome.abort ("Unsupported scaling mode: " ++ arg3))
      | some _ => ([Event.attemptDecode arg2, Event.paint], Outcome.running)

/-- The control flow of `main` (main.c lines 55-209): argc check,
desktop-shell check, `atoi` of the output index, unchecked output lookup,
window setup, then the paint phase. -/
def mainRun (env : Env) (argv : List String) : RunResult :=
  if argv.length ≠ 4 then
    ⟨[], Outcome.abort "Do not run this program manually. See man 5 sway and look for output options."⟩
  else if !env.desktop_shell then
    ⟨[], Outcome.abort "swaybg requires the compositor to support the desktop-shell extension."⟩
  else
    let desired_output := atoi (argv.getD 1 "")
    let log1 := Event.logUsingOutput desired_output env.outputs.length
    match lookupOutput env.outputs desired_output with
    | none => ⟨[log1], Outcome.undefined⟩
    | some _ =>
      if !env.window_ok then ⟨[log1], Outcome.abort "Failed to create surfaces."⟩
      else
        let pr := runPaint env (argv.getD 2 "") (argv.getD 3 "")
        ⟨log1 :: pr.1, pr.2⟩

/-- C7: the color validator accepts the example color and rejects the four
malformed variants from the spec. -/
theorem color_validator_examples :
    is_valid_color "#a1B2c3" = true ∧
    is_valid_color "a1B2c3" = false ∧
    is_valid_color "#a1B2c" = false ∧
    is_valid_color "#a1B2c3Z" = false ∧
    is_valid_color "#a1B2zz" = false := by
  decide

/-- C5: for positive dimensions, stretch placement scales each axis
independently so the scaled image matches the target exactly, with the
origin at (0,0). -/
theorem stretch_exact_cover (ww wh w h : ℚ)
    (hww : 0 < ww) (hwh : 0 < wh) (hw : 0 < w) (hh : 0 < h) :
    (placeStretch ww wh w h).scale_x * w = ww ∧
    (placeStretch ww wh w h).scale_y * h = wh ∧
    (placeStretch ww wh w h).offset_x = 0 ∧
    (placeStretch ww wh w h).offset_y = 0 := by
  refine ⟨?_, ?_, rfl, rfl⟩
  · exact div_mul_cancel₀ ww hw.ne'
  · exact div_mul_cancel₀ wh hh.ne'

/-- Witness for C5 at target 1920x1080, image 800x600. -/
theorem stretch_exact_cover_witness :
    (placeStretch 1920 1080 800 600).scale_x * 800 = 1920 ∧
    (placeStretch 1920 1080 800 600).scale_y * 600 = 1080 ∧
    (placeStretch 1920 1080 800 600).offset_x = 0 ∧
    (placeStretch 1920 1080 800 600).offset_y = 0 :=
  stretch_exact_cover 1920 1080 800 600 (by norm_num) (by norm_num)
    (by norm_num) (by norm_num)

/-- C1: for positive dimensions, fill placement uses one uniform scale and
the scaled image covers the target on both axes, exactly matching it on at
least one axis. -/
theorem fill_covers_target (ww wh w h : ℚ)
    (hww : 0 < ww) (hwh : 0 < wh) (hw : 0 < w) (hh : 0 < h) :
    (placeFill ww wh w h).scale_x = (placeFill ww wh w h).scale_y ∧
    ww ≤ (placeFill ww wh w h).scale_x * w ∧
    wh ≤ (placeFill ww wh w h).scale_x * h ∧
    ((placeFill ww wh w h).scale_x * w = ww ∨
      (placeFill ww wh w h).scale_x * h = wh) := by
  simp only [placeFill]
  by_cases hc : ww / wh > w / h
  · rw [if_pos hc]
    have hxw : ww / w * w = ww := div_mul_cancel₀ ww hw.ne'
    have hcross : w * wh < ww * h := (div_lt_div_iff₀ hh hwh).mp hc
    refine ⟨rfl, le_of_eq hxw.symm, ?_, Or.inl hxw⟩
    rw [div_mul_eq_mul_div, le_div_iff₀ hw]
    calc wh * w = w * wh := mul_comm wh w
      _ ≤ ww * h := le_of_lt hcross
  · rw [if_neg hc]
    have hxh : wh / h * h = wh := div_mul_cancel₀ wh hh.ne'
    have hcross : ww * h ≤ w * wh := (div_le_div_iff₀ hwh hh).mp (not_lt.mp hc)
    refine ⟨rfl, ?_, le_of_eq hxh.symm, Or.inr hxh⟩
    rw [div_mul_eq_mul_div, le_div_iff₀ hh]
    calc ww * h ≤ w * wh := hcross
      _ = wh * w := mul_comm w wh

/-- Witness for C1 at target 2560x1080, image 1000x1000. -/
theorem fill_covers_target_witness :
    (placeFill 2560 1080 1000 1000).scale_x = (placeFill 2560 1080 1000 1000).scale_y ∧
    (2560 : ℚ) ≤ (placeFill 2560 1080 1000 1000).scale_x * 1000 ∧
    (1080 : ℚ) ≤ (placeFill 2560 1080 1000 1000).scale_x * 1000 ∧
    ((placeFill 2560 1080 1000 1000).scale_x * 1000 = 2560 ∨
      (placeFill 2560 1080 1000 1000).scale_x * 1000 = 1080) :=
  fill_covers_target 2560 1080 1000 1000 (by norm_num) (by norm_num)
    (by norm_num) (by norm_num)

/-- C2: for positive dimensions, fit placement uses one uniform scale and
the scaled image stays inside the target on both axes, exactly matching it
on at least one axis. -/
theorem fit_within_target (ww wh w h : ℚ)
    (hww : 0 < ww) (hwh : 0 < wh) (hw : 0 < w) (hh : 0 < h) :
    (placeFit ww wh w h).scale_x = (placeFit ww wh w h).scale_y ∧
    (placeFit ww wh w h).scale_x * w ≤ ww ∧
    (placeFit ww wh w h).scale_x * h ≤ wh ∧
    ((placeFit ww wh w h).scale_x * w = ww ∨
      (placeFit ww wh w h).scale_x * h = wh) := by
  simp only [placeFit]
  by_cases hc : ww / wh > w / h
  · rw [if_pos hc]
    have hxh : wh / h * h = wh := div_mul_cancel₀ wh hh.ne'
    have hcross : w * wh < ww * h := (div_lt_div_iff₀ hh hwh).mp hc
    refine ⟨rfl, ?_, le_of_eq hxh, Or.inr hxh⟩
    rw [div_mul_eq_mul_div, div_le_iff₀ hh]
    calc wh * w = w * wh := mul_comm wh w
      _ ≤ ww * h := le_of_lt hcross
  · rw [if_neg hc]
    have hxw : ww / w * w = ww := div_mul_cancel₀ ww hw.ne'
    have hcross : ww * h ≤ w * wh := (div_le_div_iff₀ hwh hh).mp (not_lt.mp hc)
    refine ⟨rfl, le_of_eq hxw, ?_, Or.inl hxw⟩
    rw [div_mul_eq_mul_div, div_le_iff₀ hw]
    calc ww * h ≤ w * wh := hcross
      _ = wh * w := mul_comm w wh

/-- Witness for C2 at target 1920x1080, image 800x600 (the spec's fit
scenario). -/
theorem fit_within_target_witness :
    (placeFit 1920 1080 800 600).scale_x = (placeFit 1920 1080 800 600).scale_y ∧
    (placeFit 1920 1080 800 600).scale_x * 800 ≤ 1920 ∧
    (placeFit 1920 1080 800 600).scale_x * 600 ≤ 1080 ∧
    ((placeFit 1920 1080 800 600).scale_x * 800 = 1920 ∨
      (placeFit 1920 1080 800 600).scale_x * 600 = 1080) :=
  fit_within_target 1920 1080 800 600 (by norm_num) (by norm_num)
    (by norm_num) (by norm_num)

/-- C4: when the target and image aspect ratios are equal, the strict
comparison fails, so both fill and fit take the else branch, and in both
modes the uniform scale equals target_h / image_h. -/
theorem equal_ratios_else_branch (ww wh w h : ℚ)
    (hww : 0 < ww) (hwh : 0 < wh) (hw : 0 < w) (hh : 0 < h)
    (hr : ww / wh = w / h) :
    ¬(ww / wh > w / h) ∧
    (placeFill ww wh w h).scale_x = wh / h ∧
    (placeFill ww wh w h).scale_y = wh / h ∧
    (placeFit ww wh w h).scale_x = wh / h ∧
    (placeFit ww wh w h).scale_y = wh / h := by
  have hnot : ¬(ww / wh > w / h) := by rw [hr]; exact lt_irrefl _
  have hfitscale : ww / w = wh / h := by
    rw [div_eq_div_iff hw.ne' hh.ne']
    have hcross : ww * h = w * wh := (div_eq_div_iff hwh.ne' hh.ne').mp hr
    linarith
  refine ⟨hnot, ?_, ?_, ?_, ?_⟩ <;>
    simp only [placeFill, placeFit, if_neg hnot, hfitscale]

/-- Witness for C4 at target 1920x1080, image 1280x720 (both 16:9). -/
theorem equal_ratios_else_branch_witness :
    ¬((1920 : ℚ) / 1080 > 1280 / 720) ∧
    (placeFill 1920 1080 1280 720).scale_x = 1080 / 720 ∧
    (placeFill 1920 1080 1280 720).scale_y = 1080 / 720 ∧
    (placeFit 1920 1080 1280 720).scale_x = 1080 / 720 ∧
    (placeFit 1920 1080 1280 720).scale_y = 1080 / 720 :=
  equal_ratios_else_branch 1920 1080 1280 720 (by norm_num) (by norm_num)
    (by norm_num) (by norm_num) (by norm_num)

/-- C8: center and tile leave the transform scale at 1 on both axes. -/
theorem center_tile_unit_scale (ww wh w h : ℚ) :
    (placeCenter ww wh w h).scale_x = 1 ∧ (placeCenter ww wh w h).scale_y = 1 ∧
    (placeTile ww wh w h).scale_x = 1 ∧ (placeTile ww wh w h).scale_y = 1 :=
  ⟨rfl, rfl, rfl, rfl⟩

/-- Unfolding of `mainRun` for a four-element argument vector when the
desktop-shell capability is present. -/
theorem mainRun_cons (env : Env) (a1 a2 a3 : String)
    (hshell : env.desktop_shell = true) :
    mainRun env ["swaybg", a1, a2, a3] =
      match lookupOutput env.outputs (atoi a1) with
      | none => ⟨[Event.logUsingOutput (atoi a1) env.outputs.length], Outcome.undefined⟩
      | some _ =>
        if !env.window_ok then
          ⟨[Event.logUsingOutput (atoi a1) env.outputs.length],
            Outcome.abort "Failed to create surfaces."⟩
        else
          ⟨Event.logUsingOutput (atoi a1) env.outputs.length :: (runPaint env a2 a3).1,
            (runPaint env a2 a3).2⟩ := by
  simp [mainRun, hshell]

/-- The paint phase never ends in undefined behavior: every branch either
aborts or reaches the dispatch loop. -/
theorem runPaint_outcome_ne_undefined (env : Env) (arg2 arg3 : String) :
    (runPaint env arg2 arg3).2 ≠ Outcome.undefined := by
  unfold runPaint
  by_cases hcond : (arg3 == "solid_color" && is_valid_color arg2) = true
  · simp [hcond]
  · rw [if_neg hcond]
    cases env.decode arg2 with
    | none => simp
    | some v =>
      cases parseScalingMode arg3 with
      | none => simp
      | some m => simp

/-- The digit loop of `atoi` returns its accumulator unchanged when the
input does not start with a decimal digit. -/
theorem digitsVal_eq_zero (cs : List Char)
    (hcs : ∀ d rest, cs = d :: rest → d.isDigit = false) : digitsVal cs 0 = 0 := by
  cases cs with
  | nil => rfl
  | cons d rest => simp [digitsVal, hcs d rest rfl]

/-- `atoi` of a string with no leading integer is 0. -/
theorem atoi_eq_zero_of_noLeadingInt (s : String) (hs : noLeadingInt s = true) :
    atoi s = 0 := by
  unfold atoi
  unfold noLeadingInt at hs
  cases hds : dropSpaces s.toList with
  | nil => rfl
  | cons c rest =>
    rw [hds] at hs
    dsimp only at hs ⊢
    by_cases hneg : c = '-'
    · rw [if_pos hneg]
      rw [if_pos (Or.inl hneg)] at hs
      have : digitsVal rest 0 = 0 := by
        apply digitsVal_eq_zero
        intro d r hr
        rw [hr] at hs
        simpa using hs
      rw [this]
      rfl
    · rw [if_neg hneg]
      by_cases hpos : c = '+'
      · rw [if_pos hpos]
        rw [if_pos (Or.inr hpos)] at hs
        have : digitsVal rest 0 = 0 := by
          apply digitsVal_eq_zero
          intro d r hr
          rw [hr] at hs
          simpa using hs
        rw [this]
        rfl
      · rw [if_neg hpos]
        rw [if_neg (by push_neg; exact ⟨hneg, hpos⟩)] at hs
        have hcd : c.isDigit = false := by simpa using hs
        have : digitsVal (c :: rest) 0 = 0 := by
          apply digitsVal_eq_zero
          intro d r hr
          cases hr
          exact hcd
        rw [this]
        rfl

/-- Environment where every decode succeeds, used to exhibit the image
fallthrough on an invalid color. -/
def envFallthrough : Env :=
  ⟨true, [⟨1920, 1080, 1⟩], true, fun _ => some (4, 4)⟩

/-- Environment whose decoder always succeeds, for the unrecognized-mode
run. -/
def envBadMode : Env :=
  ⟨true, [⟨1920, 1080, 1⟩], true, fun _ => some (8, 8)⟩

/-- Environment with a single output, for the bounds and atoi runs. -/
def envOneOutput : Env :=
  ⟨true, [⟨1024, 768, 1⟩], true, fun _ => none⟩

/-- Counterexample to C3: with mode solid_color and the invalid color
string "red", the run does attempt to decode "red" as an image file, and
the eventual abort comes from the scaling-mode dispatch, not from the color
check. -/
theorem solid_invalid_color_decode_attempt :
    is_valid_color "red" = false ∧
    (mainRun envFallthrough ["swaybg", "0", "red", "solid_color"]).events =
      [Event.logUsingOutput 0 1, Event.attemptDecode "red"] ∧
    (mainRun envFallthrough ["swaybg", "0", "red", "solid_color"]).outcome =
      Outcome.abort "Unsupported scaling mode: solid_color" := by
  refine ⟨by decide, rfl, rfl⟩

/-- C3 amended: with mode solid_color and an invalid color string, the
solid-color branch is skipped and the run falls through to the image path,
attempting to decode the color argument as an image file; it then aborts
with a non-zero status (either the decode fails, or the mode dispatch
rejects "solid_color"), and no paint call happens. -/
theorem solid_invalid_color_falls_through (env : Env) (a1 a2 : String)
    (hshell : env.desktop_shell = true)
    (hout : (lookupOutput env.outputs (atoi a1)).isSome = true)
    (hwin : env.window_ok = true)
    (hcolor : is_valid_color a2 = false) :
    Event.attemptDecode a2 ∈ (mainRun env ["swaybg", a1, a2, "solid_color"]).events ∧
    (∃ msg, (mainRun env ["swaybg", a1, a2, "solid_color"]).outcome = Outcome.abort msg) ∧
    Event.paint ∉ (mainRun env ["swaybg", a1, a2, "solid_color"]).events := by
  obtain ⟨o, ho⟩ := Option.isSome_iff_exists.mp hout
  rw [mainRun_cons env a1 a2 "solid_color" hshell, ho]
  have hcond : ("solid_color" == "solid_color" && is_valid_color a2) = false := by
    simp [hcolor]
  have hpm : parseScalingMode "solid_color" = none := by decide
  cases hd : env.decode a2 with
  | none =>
    have hrp : runPaint env a2 "solid_color" =
        ([Event.attemptDecode a2], Outcome.abort "Failed to load background image.") := by
      unfold runPaint
      rw [if_neg (by rw [hcond]; exact Bool.false_ne_true), hd]
    refine ⟨?_, ⟨"Failed to load background image.", ?_⟩, ?_⟩ <;> simp [hwin, hrp]
  | some v =>
    have hrp : runPaint env a2 "solid_color" =
        ([Event.attemptDecode a2], Outcome.abort "Unsupported scaling mode: solid_color") := by
      unfold runPaint
      rw [if_neg (by rw [hcond]; exact Bool.false_ne_true), hd, hpm]
      rfl
    refine ⟨?_, ⟨"Unsupported scaling mode: solid_color", ?_⟩, ?_⟩ <;> simp [hwin, hrp]

/-- Witness for the amended C3 at a concrete environment and arguments. -/
theorem solid_invalid_color_falls_through_witness :
    Event.attemptDecode "#12345" ∈
      (mainRun envOneOutput ["swaybg", "0", "#12345", "solid_color"]).events ∧
    (∃ msg, (mainRun envOneOutput ["swaybg", "0", "#12345", "solid_color"]).outcome =
      Outcome.abort msg) ∧
    Event.paint ∉ (mainRun envOneOutput ["swaybg", "0", "#12345", "solid_color"]).events :=
  solid_invalid_color_falls_through envOneOutput "0" "#12345" rfl (by decide) rfl (by decide)

/-- C6: when the mode string is none of the six recognized ones, any run
that does not hit undefined behavior aborts with a non-zero status and no
paint call ever happens. -/
theorem bad_mode_aborts_before_paint (env : Env) (a1 a2 a3 : String)
    (hnotsolid : a3 ≠ "solid_color")
    (hmode : parseScalingMode a3 = none)
    (hdef : (mainRun env ["swaybg", a1, a2, a3]).outcome ≠ Outcome.undefined) :
    (∃ msg, (mainRun env ["swaybg", a1, a2, a3]).outcome = Outcome.abort msg) ∧
    Event.paint ∉ (mainRun env ["swaybg", a1, a2, a3]).events := by
  cases hshell : env.desktop_shell with
  | false =>
    simp [mainRun, hshell]
  | true =>
    rw [mainRun_cons env a1 a2 a3 hshell] at hdef ⊢
    cases hlk : lookupOutput env.outputs (atoi a1) with
    | none => rw [hlk] at hdef; simp at hdef
    | some o =>
      cases hwin : env.window_ok with
      | false =>
        refine ⟨⟨"Failed to create surfaces.", ?_⟩, ?_⟩ <;> simp [hwin]
      | true =>
        have hcond : (a3 == "solid_color" && is_valid_color a2) = false := by
          simp [beq_eq_false_iff_ne.mpr hnotsolid]
        cases hd : env.decode a2 with
        | none =>
          have hrp : runPaint env a2 a3 =
              ([Event.attemptDecode a2], Outcome.abort "Failed to load background image.") := by
            unfold runPaint
            rw [if_neg (by rw [hcond]; exact Bool.false_ne_true), hd]
          refine ⟨⟨"Failed to load background image.", ?_⟩, ?_⟩ <;> simp [hwin, hrp]
        | some v =>
          have hrp : runPaint env a2 a3 =
              ([Event.attemptDecode a2], Outcome.abort ("Unsupported scaling mode: " ++ a3)) := by
            unfold runPaint
            rw [if_neg (by rw [hcond]; exact Bool.false_ne_true), hd, hmode]
          refine ⟨⟨"Unsupported scaling mode: " ++ a3, ?_⟩, ?_⟩ <;> simp [hwin, hrp]

/-- Witness for C6 with the mode string "zoom". -/
theorem bad_mode_aborts_before_paint_witness :
    (∃ msg, (mainRun envBadMode ["swaybg", "0", "bg.png", "zoom"]).outcome =
      Outcome.abort msg) ∧
    Event.paint ∉ (mainRun envBadMode ["swaybg", "0", "bg.png", "zoom"]).events :=
  bad_mode_aborts_before_paint envBadMode "0" "bg.png" "zoom" (by decide) (by decide)
    (by decide)

/-- C9: the output lookup yields a value exactly when the index is within
bounds, and a run whose lookup is out of bounds (with the capability checks
passed) ends in undefined behavior. -/
theorem output_index_bounds (l : List output_state) (i : Int)
    (env : Env) (a1 a2 a3 : String)
    (hshell : env.desktop_shell = true)
    (hoob : lookupOutput env.outputs (atoi a1) = none) :
    ((lookupOutput l i).isSome = true ↔ 0 ≤ i ∧ i.toNat < l.length) ∧
    (mainRun env ["swaybg", a1, a2, a3]).outcome = Outcome.undefined := by
  constructor
  · unfold lookupOutput
    by_cases hi : 0 ≤ i
    · rw [if_pos hi]
      rw [List.get?_eq_getElem?, Option.isSome_iff_ne_none, ne_eq,
        List.getElem?_eq_none_iff]
      constructor
      · intro hlt
        exact ⟨hi, by omega⟩
      · intro hlt
        omega
    · rw [if_neg hi]
      constructor
      · intro hfalse
        exact absurd hfalse (by simp)
      · intro hlt
        exact absurd hlt.1 hi
  · rw [mainRun_cons env a1 a2 a3 hshell, hoob]

/-- Witness for C9: one output, requested index 5. -/
theorem output_index_bounds_witness :
    ((lookupOutput [⟨1024, 768, 1⟩] 5).isSome = true ↔
      0 ≤ (5 : Int) ∧ (5 : Int).toNat < 1) ∧
    (mainRun envOneOutput ["swaybg", "5", "bg.png", "fill"]).outcome =
      Outcome.undefined :=
  output_index_bounds [⟨1024, 768, 1⟩] 5 envOneOutput "5" "bg.png" "fill" rfl (by decide)

/-- C10: a first argument with no leading integer parses to 0 via `atoi`,
and the run proceeds to use output 0 (the log records index 0) instead of
failing; with at least one output the run does not go out of bounds. -/
theorem atoi_nonnumeric_defaults_zero (env : Env) (s a2 a3 : String)
    (hs : noLeadingInt s = true)
    (hshell : env.desktop_shell = true)
    (hne : env.outputs ≠ []) :
    atoi s = 0 ∧
    (mainRun env ["swaybg", s, a2, a3]).events.head? =
      some (Event.logUsingOutput 0 env.outputs.length) ∧
    (mainRun env ["swaybg", s, a2, a3]).outcome ≠ Outcome.undefined := by
  have h0 : atoi s = 0 := atoi_eq_zero_of_noLeadingInt s hs
  obtain ⟨o, rest, hl⟩ : ∃ o rest, env.outputs = o :: rest := by
    cases henv : env.outputs with
    | nil => exact absurd henv hne
    | cons o rest => exact ⟨o, rest, rfl⟩
  have hlk : lookupOutput env.outputs (atoi s) = some o := by
    rw [h0, hl]
    simp [lookupOutput]
  refine ⟨h0, ?_, ?_⟩
  · rw [mainRun_cons env s a2 a3 hshell, hlk, h0]
    cases hwin : env.window_ok with
    | false => simp
    | true => simp
  · rw [mainRun_cons env s a2 a3 hshell, hlk]
    cases hwin : env.window_ok with
    | false => simp
    | true =>
      simp only [hwin, Bool.not_true, Bool.false_eq_true, if_false]
      exact runPaint_outcome_ne_undefined env a2 a3

/-- Witness for C10 with the non-numeric first argument "backgrounds". -/
theorem atoi_nonnumeric_defaults_zero_witness :
    atoi "backgrounds" = 0 ∧
    (mainRun envOneOutput ["swaybg", "backgrounds", "bg.png", "fit"]).events.head? =
      some (Event.logUsingOutput 0 1) ∧
    (mainRun envOneOutput ["swaybg", "backgrounds", "bg.png", "fit"]).outcome ≠
      Outcome.undefined :=
  atoi_nonnumeric_defaults_zero envOneOutput "backgrounds" "bg.png" "fit" (by decide) rfl
    (by decide)

end Swaybg
